import Mathlib

/-!
Verification of the dscKeybusInterface status core against its
natural-language specification.

The repository's `src/` holds the consumer example
(`examples/esp8266/Status/Status.ino`); the core library
(StatusModel, FrameQueue, CommandDecoder, WriteScheduler) is declared
there only through the interface the example uses, so those components
are modelled from the specification text, while the zone-number
arithmetic and the bit-level clear operations are embedded directly
from the example source.
-/

namespace Dsc

/-- Modelled from the spec: one tracked entity of the StatusModel holds a
boolean current value plus a paired changed flag
(spec section 3, "each a boolean current value plus a paired `*Changed` boolean";
the core library storing these fields is not under `src/`). -/
structure Entity where
  value : Bool
  changed : Bool
deriving DecidableEq, Repr

/-- Modelled from the spec: identifiers for every tracked entity of the
status surface (spec section 6): per-partition fields (8 partitions),
per-zone open/alarm bits (64 zones), and the system-level flags. -/
inductive EntityId where
  | ready : Fin 8 → EntityId
  | armed : Fin 8 → EntityId
  | armedAway : Fin 8 → EntityId
  | armedStay : Fin 8 → EntityId
  | alarm : Fin 8 → EntityId
  | exitDelay : Fin 8 → EntityId
  | entryDelay : Fin 8 → EntityId
  | fire : Fin 8 → EntityId
  | openZone : Fin 64 → EntityId
  | alarmZone : Fin 64 → EntityId
  | keybusConnected : EntityId
  | trouble : EntityId
  | powerTrouble : EntityId
  | batteryTrouble : EntityId
deriving DecidableEq, Repr

/-- Modelled from the spec: the StatusModel maintains current value and
changed flag for every tracked entity, plus the global `statusChanged`
aggregation flag (spec sections 3 and 4.5; the core library is not
under `src/`). -/
structure StatusModel where
  entity : EntityId → Entity
  statusChanged : Bool

/-- Modelled from the spec: all state resets to defaults on
initialization (spec section 3, lifecycle). -/
def initModel : StatusModel :=
  { entity := fun _ => { value := false, changed := false }
    statusChanged := false }

/-- Modelled from the spec: the diff rule of StatusModel,
"if incoming != stored: stored = incoming; changedFlag = true"
(spec section 4.5), with the global `statusChanged` flag "set whenever
any individual changed-flag becomes true". -/
def applyUpdate (m : StatusModel) (id : EntityId) (v : Bool) : StatusModel :=
  if v ≠ (m.entity id).value then
    { entity := fun j => if j = id then { value := v, changed := true } else m.entity j
      statusChanged := true }
  else m

/-- Modelled from the spec: decoded updates apply to StatusModel in
frame order (spec section 5, ordering). -/
def applyUpdates (m : StatusModel) (us : List (EntityId × Bool)) : StatusModel :=
  us.foldl (fun acc u => applyUpdate acc u.1 u.2) m

/-- Modelled from the spec: the consumer's explicit clear of one
entity's changed flag — the value is left as read (spec section 4.5,
poll-and-clear contract). -/
def clearChanged (m : StatusModel) (id : EntityId) : StatusModel :=
  { m with
    entity := fun j =>
      if j = id then { value := (m.entity id).value, changed := false } else m.entity j }

/-- Modelled from the spec: a Frame is a raw byte sequence captured from
one bus transmission plus a validity flag (spec section 3; the
FrameAssembler producing these is not under `src/`). -/
structure Frame where
  bytes : List Nat
  valid : Bool
deriving DecidableEq, Repr

/-- Leading opcode byte of a frame (spec section 4.4: the command family
is identified "from a leading opcode byte"). -/
def opcode (f : Frame) : Nat := f.bytes.headD 0

/-- Modelled from the spec: FrameQueue is a bounded FIFO sized by
configuration, carrying the sticky `bufferOverflow` signal
(spec sections 3 and 4.3; the core library is not under `src/`). -/
structure FrameQueue where
  capacity : Nat
  frames : List Frame
  bufferOverflow : Bool
deriving DecidableEq, Repr

/-- Modelled from the spec: an empty FrameQueue of the configured
capacity. -/
def emptyQueue (cap : Nat) : FrameQueue :=
  { capacity := cap, frames := [], bufferOverflow := false }

/-- Modelled from the spec: interrupt-side push — "If full, the newest
frame is dropped and `bufferOverflow` is set" (spec section 4.3). -/
def push (q : FrameQueue) (f : Frame) : FrameQueue :=
  if q.frames.length < q.capacity then { q with frames := q.frames ++ [f] }
  else { q with bufferOverflow := true }

/-- Modelled from the spec: a burst of frame arrivals, in bus order. -/
def pushAll (q : FrameQueue) (fs : List Frame) : FrameQueue :=
  fs.foldl push q

/-- Modelled from the spec: application-side pop of the oldest queued
frame (spec section 4.3, "Pop happens from application context when the
consumer polls"). -/
def pop (q : FrameQueue) : Option (Frame × FrameQueue) :=
  match q.frames with
  | [] => none
  | f :: rest => some (f, { q with frames := rest })

/-- Modelled from the spec: the consumer's explicit acknowledgment of the
overflow signal (spec section 3, cleared "only by consumer
acknowledgment"). -/
def clearBufferOverflow (q : FrameQueue) : FrameQueue :=
  { q with bufferOverflow := false }

/-- Modelled from the spec: repeated popping (the polling loop's drain
order), fuel-bounded. -/
def drainAux : Nat → FrameQueue → List Frame
  | 0, _ => []
  | n + 1, q =>
    match pop q with
    | none => []
    | some (f, q') => f :: drainAux n q'

/-- Modelled from the spec: the CommandDecoder's dispatch table — a fixed
partial map from a leading opcode byte to the field layout extracting
decoded entity values from the frame bytes (spec section 4.4; the exact
opcode table is proprietary, spec section 9, so it is kept as a
parameter). -/
def DispatchTable : Type :=
  Nat → Option (List Nat → List (EntityId × Bool))

/-- Modelled from the spec: the application-visible core state — the
StatusModel plus the FrameQueue (the core library is not under `src/`). -/
structure CoreState where
  model : StatusModel
  queue : FrameQueue

/-- Modelled from the spec: the poll operation — "process one pending
frame if available; returns whether a valid command was processed"
(spec section 6); unknown opcodes are ignored without error
(spec section 4.4). -/
def poll (t : DispatchTable) (s : CoreState) : CoreState × Bool :=
  match pop s.queue with
  | none => (s, false)
  | some (f, q) =>
    if f.valid then
      match t (opcode f) with
      | some dec => ({ model := applyUpdates s.model (dec f.bytes), queue := q }, true)
      | none => ({ s with queue := q }, false)
    else ({ s with queue := q }, false)

/-- Modelled from the spec: `n` successive poll operations of the core. -/
def pollN (t : DispatchTable) : Nat → CoreState → CoreState
  | 0, s => s
  | n + 1, s => pollN t n (poll t s).1

/-- Modelled from the spec: WriteScheduler states — `Idle` (no byte
queued, writeReady true), `Queued` (byte accepted), `Transmitting`
(slot detected, driving line) (spec section 4.6 state machine). -/
inductive WState where
  | idle : WState
  | queued : Nat → WState
  | transmitting : Nat → WState
deriving DecidableEq, Repr

/-- Modelled from the spec: `writeReady` gate — true exactly in `Idle`
(spec section 4.6, "writeReady (false while a byte is still pending
transmission)"). -/
def writeReady : WState → Bool
  | WState.idle => true
  | _ => false

/-- Modelled from the spec: the single pending outbound byte, if any
(spec section 3, WriteRequest). -/
def pendingByte : WState → Option Nat
  | WState.idle => none
  | WState.queued b => some b
  | WState.transmitting b => some b

/-- Modelled from the spec: the write operation, "valid only when
`writeReady` is true" (spec section 6); returns the new state and
whether the byte was accepted. -/
def write (s : WState) (b : Nat) : WState × Bool :=
  if writeReady s then (WState.queued b, true) else (s, false)

/-- Modelled from the spec: bus events seen by the WriteScheduler — an
eligible write slot detected, an expected slot missed, and transmission
completion (spec section 4.6). -/
inductive WEvent where
  | slotDetected : WEvent
  | slotMissed : WEvent
  | txComplete : WEvent
deriving DecidableEq, Repr

/-- Modelled from the spec: WriteScheduler transitions — `Queued` moves
to `Transmitting` on a detected slot; a missed slot leaves the byte
queued for retry; transmission completion returns to `Idle`
(spec section 4.6). -/
def wstep : WState → WEvent → WState
  | WState.idle, _ => WState.idle
  | WState.queued b, WEvent.slotDetected => WState.transmitting b
  | WState.queued b, _ => WState.queued b
  | WState.transmitting _, WEvent.txComplete => WState.idle
  | WState.transmitting b, WEvent.slotMissed => WState.queued b
  | WState.transmitting b, WEvent.slotDetected => WState.transmitting b

/-- Modelled from the spec: a run of WriteScheduler events. -/
def wsteps (s : WState) (es : List WEvent) : WState :=
  es.foldl wstep s

/-- Zone number reported by the consumer for one changed zone bit:
`zoneBit + 1 + (zoneGroup * 8)` (Status.ino lines 178, 182, 203, 207). -/
def zoneNumber (zoneGroup zoneBit : Nat) : Nat :=
  zoneBit + 1 + zoneGroup * 8

/-- Arduino `bitRead(value, bit)` as used by the example consumer to test
an individual zone flag bit: `(value >> bit) & 0x01`
(Status.ino lines 174, 176, 199, 201). -/
def bitRead (value bit : Nat) : Nat :=
  (value >>> bit) &&& 1

/-- Arduino `bitWrite(value, bit, bitvalue)` on byte storage: clears bit
`bit` when `bitvalue` is 0 (`value &= ~(1 << bit)`, the complement mask
on 8 bits being `255 ^^^ (1 <<< bit)`), otherwise sets it
(Status.ino lines 175, 200, called with bitvalue 0). -/
def bitWrite (value bit bitvalue : Nat) : Nat :=
  if bitvalue = 0 then value &&& (255 ^^^ (1 <<< bit)) else value ||| (1 <<< bit)

/-- Zone status surface of the interface: `openZones`/`openZonesChanged`
and `alarmZones`/`alarmZonesChanged`, one byte per group of 8 zones
(Status.ino lines 165 to 169 and 190 to 194). -/
structure ZoneStatus where
  openZones : Fin 8 → Nat
  openZonesChanged : Fin 8 → Nat
  alarmZones : Fin 8 → Nat
  alarmZonesChanged : Fin 8 → Nat

/-- Consumer's clear of one open-zone changed bit:
`bitWrite(dsc.openZonesChanged[zoneGroup], zoneBit, 0)`
(Status.ino line 175). -/
def clearOpenZoneChangedBit (z : ZoneStatus) (g : Fin 8) (b : Nat) : ZoneStatus :=
  { z with openZonesChanged := fun j =>
      if j = g then bitWrite (z.openZonesChanged g) b 0 else z.openZonesChanged j }

/-- Consumer's clear of one alarm-zone changed bit:
`bitWrite(dsc.alarmZonesChanged[zoneGroup], zoneBit, 0)`
(Status.ino line 200). -/
def clearAlarmZoneChangedBit (z : ZoneStatus) (g : Fin 8) (b : Nat) : ZoneStatus :=
  { z with alarmZonesChanged := fun j =>
      if j = g then bitWrite (z.alarmZonesChanged g) b 0 else z.alarmZonesChanged j }

/-- Concrete frame used in the overflow scenario: a one-byte valid frame. -/
def mkFrame (n : Nat) : Frame :=
  { bytes := [n], valid := true }

/-- Scenario of spec section 8: 20 frames arrive while queue capacity is
16 and the consumer has not polled. -/
def scenarioQueue : FrameQueue :=
  pushAll (emptyQueue 16) ((List.range 20).map mkFrame)

/-- Concrete one-opcode dispatch table used to witness the poll
contract. -/
def tableW : DispatchTable :=
  fun op => if op = 5 then some (fun _ => [(EntityId.trouble, true)]) else none

/-- Concrete core state used to witness the poll contract: one valid
frame with opcode 5 queued. -/
def stateW : CoreState :=
  { model := initModel
    queue := { capacity := 16, frames := [mkFrame 5], bufferOverflow := false } }

/-- Concrete dispatch table with no known opcodes, used to witness the
unknown-opcode claim. -/
def tableNone : DispatchTable :=
  fun _ => none

/-- Concrete zone status used to witness the single-bit clear: every
byte of every group at 255. -/
def zoneW : ZoneStatus :=
  { openZones := fun _ => 255
    openZonesChanged := fun _ => 255
    alarmZones := fun _ => 255
    alarmZonesChanged := fun _ => 255 }

theorem applyUpdate_changed_mono (m : StatusModel) (id j : EntityId) (v : Bool)
    (h : (m.entity j).changed = true) :
    ((applyUpdate m id v).entity j).changed = true := by
  unfold applyUpdate
  split
  · by_cases hj : j = id <;> simp [hj, h]
  · exact h

theorem applyUpdates_changed_mono (m : StatusModel) (j : EntityId)
    (us : List (EntityId × Bool)) (h : (m.entity j).changed = true) :
    ((applyUpdates m us).entity j).changed = true := by
  induction us generalizing m with
  | nil => exact h
  | cons u rest ih =>
      exact ih _ (applyUpdate_changed_mono m u.1 j u.2 h)

theorem applyUpdates_nil (m : StatusModel) : applyUpdates m [] = m := rfl

theorem applyUpdates_cons (m : StatusModel) (u : EntityId × Bool)
    (us : List (EntityId × Bool)) :
    applyUpdates m (u :: us) = applyUpdates (applyUpdate m u.1 u.2) us := rfl

theorem poll_model_cases (t : DispatchTable) (s : CoreState) :
    (poll t s).1.model = s.model ∨
    ∃ us, (poll t s).1.model = applyUpdates s.model us := by
  unfold poll
  cases hq : pop s.queue with
  | none => left; rfl
  | some fq =>
      obtain ⟨f, q⟩ := fq
      cases hv : f.valid
      · left
        simp [hv]
      · simp only [hv]
        cases ht : t (opcode f) with
        | none => left; simp
        | some dec =>
            right
            exact ⟨dec f.bytes, by simp⟩

theorem poll_changed_mono (t : DispatchTable) (s : CoreState) (id : EntityId)
    (h : (s.model.entity id).changed = true) :
    ((poll t s).1.model.entity id).changed = true := by
  rcases poll_model_cases t s with hm | ⟨us, hm⟩
  · rw [hm]; exact h
  · rw [hm]; exact applyUpdates_changed_mono s.model id us h

theorem pollN_changed_mono (t : DispatchTable) (n : Nat) (s : CoreState)
    (id : EntityId) (h : (s.model.entity id).changed = true) :
    ((pollN t n s).model.entity id).changed = true := by
  induction n generalizing s with
  | zero => exact h
  | succ k ih => exact ih _ (poll_changed_mono t s id h)

theorem applyUpdate_entity_self (m : StatusModel) (id : EntityId) (v : Bool)
    (h : v ≠ (m.entity id).value) :
    (applyUpdate m id v).entity id = { value := v, changed := true } := by
  unfold applyUpdate
  simp [h]

theorem applyUpdate_entity_of_no_transition (m : StatusModel) (id : EntityId)
    (u : EntityId × Bool) (hu : u.1 = id → u.2 = (m.entity id).value) :
    (applyUpdate m u.1 u.2).entity id = m.entity id := by
  by_cases h1 : u.1 = id
  · subst h1
    have hval : u.2 = (m.entity u.1).value := hu rfl
    unfold applyUpdate
    simp [hval]
  · unfold applyUpdate
    split
    · have h2 : ¬(id = u.1) := fun hh => h1 hh.symm
      simp [h2]
    · rfl

theorem applyUpdates_entity_of_no_transition (m : StatusModel) (id : EntityId)
    (us : List (EntityId × Bool))
    (hall : ∀ u ∈ us, u.1 = id → u.2 = (m.entity id).value) :
    (applyUpdates m us).entity id = m.entity id := by
  induction us generalizing m with
  | nil => rfl
  | cons u rest ih =>
      have hstep : (applyUpdate m u.1 u.2).entity id = m.entity id :=
        applyUpdate_entity_of_no_transition m id u (fun h1 => hall u (by simp) h1)
      rw [applyUpdates_cons]
      rw [ih (applyUpdate m u.1 u.2) ?_, hstep]
      intro u' hu' h1
      rw [hstep]
      exact hall u' (by simp [hu']) h1

/-- C1: for every tracked entity, the StatusModel update applies the diff
rule — a differing incoming value replaces the stored value and sets the
changed flag, an equal incoming value leaves the model untouched — and no
StatusModel operation ever clears a changed flag (only the consumer's
explicit clear does). -/
theorem c1_diff_rule (m : StatusModel) (id : EntityId) (v : Bool) :
    (v ≠ (m.entity id).value →
      ((applyUpdate m id v).entity id).value = v ∧
      ((applyUpdate m id v).entity id).changed = true) ∧
    (v = (m.entity id).value → applyUpdate m id v = m) ∧
    (∀ j us, (m.entity j).changed = true →
      ((applyUpdates m us).entity j).changed = true) ∧
    ((clearChanged m id).entity id).changed = false := by
  refine ⟨?_, ?_, ?_, ?_⟩
  · intro hne
    unfold applyUpdate
    simp [hne]
  · intro heq
    unfold applyUpdate
    simp [heq]
  · intro j us h
    exact applyUpdates_changed_mono m j us h
  · unfold clearChanged
    simp

/-- C1 witness: the diff rule evaluated at a concrete model and entity. -/
theorem c1_diff_rule_witness :
    (true ≠ (initModel.entity EntityId.trouble).value) ∧
    ((applyUpdate initModel EntityId.trouble true).entity EntityId.trouble).value = true ∧
    ((applyUpdate initModel EntityId.trouble true).entity EntityId.trouble).changed = true :=
  ⟨by decide, (c1_diff_rule initModel EntityId.trouble true).1 (by decide)⟩

/-- C2: every changed flag, once set by a value transition, stays set
across all subsequent core poll operations until the consumer explicitly
clears it; and after a consumer clear it stays false as long as no
further value transition hits that entity. -/
theorem c2_sticky_flags (t : DispatchTable) (n : Nat) (s : CoreState)
    (m : StatusModel) (id : EntityId) (us : List (EntityId × Bool)) :
    ((s.model.entity id).changed = true →
      ((pollN t n s).model.entity id).changed = true) ∧
    ((∀ u ∈ us, u.1 = id → u.2 = (m.entity id).value) →
      ((applyUpdates (clearChanged m id) us).entity id).changed = false) := by
  constructor
  · intro h
    exact pollN_changed_mono t n s id h
  · intro hall
    have hc : (clearChanged m id).entity id =
        { value := (m.entity id).value, changed := false } := by
      unfold clearChanged
      simp
    have hpres : (applyUpdates (clearChanged m id) us).entity id =
        (clearChanged m id).entity id := by
      apply applyUpdates_entity_of_no_transition
      intro u hu h1
      rw [hc]
      exact hall u hu h1
    rw [hpres, hc]

/-- C2 witness: a set flag survives one poll, and a cleared flag stays
false under a transition-free update, at concrete inputs. -/
theorem c2_sticky_flags_witness :
    ((pollN tableW 1
        { model := applyUpdate initModel EntityId.trouble true
          queue := emptyQueue 16 }).model.entity EntityId.trouble).changed = true ∧
    ((applyUpdates (clearChanged initModel EntityId.trouble)
        [(EntityId.trouble, false)]).entity EntityId.trouble).changed = false :=
  ⟨(c2_sticky_flags tableW 1
      { model := applyUpdate initModel EntityId.trouble true, queue := emptyQueue 16 }
      initModel EntityId.trouble [(EntityId.trouble, false)]).1 (by decide),
   (c2_sticky_flags tableW 1
      { model := applyUpdate initModel EntityId.trouble true, queue := emptyQueue 16 }
      initModel EntityId.trouble [(EntityId.trouble, false)]).2 (by decide)⟩

/-- C6: an A to B to A double transition between two consumer polls
leaves the changed flag true at the next poll even though the observed
value equals the pre-transition value A. -/
theorem c6_no_flag_loss (m : StatusModel) (id : EntityId) (a b : Bool)
    (hv : (m.entity id).value = a) (hne : a ≠ b) :
    ((applyUpdates m [(id, b), (id, a)]).entity id).changed = true ∧
    ((applyUpdates m [(id, b), (id, a)]).entity id).value = a := by
  have hb : b ≠ (m.entity id).value := by
    rw [hv]
    exact Ne.symm hne
  have h1 : (applyUpdate m id b).entity id = { value := b, changed := true } := by
    unfold applyUpdate
    simp [hb]
  have h2 : applyUpdates m [(id, b), (id, a)] =
      applyUpdate (applyUpdate m id b) id a := rfl
  have ha : a ≠ ((applyUpdate m id b).entity id).value := by
    rw [h1]
    exact hne
  rw [h2, applyUpdate_entity_self _ _ _ ha]
  exact ⟨rfl, rfl⟩

/-- C6 witness: the double transition evaluated at the initial model. -/
theorem c6_no_flag_loss_witness :
    ((applyUpdates initModel
        [(EntityId.trouble, true), (EntityId.trouble, false)]).entity
        EntityId.trouble).changed = true ∧
    ((applyUpdates initModel
        [(EntityId.trouble, true), (EntityId.trouble, false)]).entity
        EntityId.trouble).value = false :=
  c6_no_flag_loss initModel EntityId.trouble false true (by decide) (by decide)

theorem push_overflow_mono (q : FrameQueue) (f : Frame)
    (h : q.bufferOverflow = true) : (push q f).bufferOverflow = true := by
  unfold push
  split <;> simp [h]

theorem pushAll_overflow_mono (q : FrameQueue) (fs : List Frame)
    (h : q.bufferOverflow = true) : (pushAll q fs).bufferOverflow = true := by
  induction fs generalizing q with
  | nil => exact h
  | cons a rest ih => exact ih _ (push_overflow_mono q a h)

theorem pop_cons (q : FrameQueue) (f : Frame) (rest : List Frame)
    (h : q.frames = f :: rest) :
    pop q = some (f, { q with frames := rest }) := by
  unfold pop
  rw [h]

/-- C4: `bufferOverflow` is set by a push exactly when the queue is full
(otherwise it keeps its old state); pops never change it; once true it
survives any further frame arrivals; only the consumer's explicit
acknowledgment clears it. -/
theorem c4_overflow_sticky (q : FrameQueue) (f : Frame) :
    ((push q f).bufferOverflow =
      (q.bufferOverflow || decide (q.capacity ≤ q.frames.length))) ∧
    (∀ f' q', pop q = some (f', q') → q'.bufferOverflow = q.bufferOverflow) ∧
    (∀ fs, q.bufferOverflow = true → (pushAll q fs).bufferOverflow = true) ∧
    (clearBufferOverflow q).bufferOverflow = false := by
  refine ⟨?_, ?_, fun fs h => pushAll_overflow_mono q fs h, rfl⟩
  · unfold push
    by_cases h : q.frames.length < q.capacity
    · have hn : ¬ q.capacity ≤ q.frames.length := Nat.not_le.mpr h
      simp [h, hn]
    · have hy : q.capacity ≤ q.frames.length := Nat.le_of_not_lt h
      simp [h, hy]
  · intro f' q' hp
    unfold pop at hp
    cases hq : q.frames with
    | nil => rw [hq] at hp; cases hp
    | cons a rest =>
        rw [hq] at hp
        cases hp
        rfl

/-- C4 witness: the overflow equation, pop preservation, stickiness and
consumer clear evaluated on the full scenario queue. -/
theorem c4_overflow_sticky_witness :
    ((push scenarioQueue (mkFrame 20)).bufferOverflow =
      (scenarioQueue.bufferOverflow ||
        decide (scenarioQueue.capacity ≤ scenarioQueue.frames.length))) ∧
    (pushAll scenarioQueue [mkFrame 21]).bufferOverflow = true :=
  ⟨(c4_overflow_sticky scenarioQueue (mkFrame 20)).1,
   (c4_overflow_sticky scenarioQueue (mkFrame 20)).2.2.1 [mkFrame 21] (by decide)⟩

/-- C7: a push onto a full FrameQueue drops the incoming frame, leaving
the queued frames unchanged and the overflow flag set; poll consumes the
head frame of the queue (FIFO); and in the 20-frames-into-capacity-16
scenario exactly the first 16 frames remain, are drained in arrival
order, and `bufferOverflow` is true. -/
theorem c7_full_queue_drop (q : FrameQueue) (f : Frame)
    (hfull : q.capacity ≤ q.frames.length) :
    ((push q f).frames = q.frames ∧ (push q f).bufferOverflow = true) ∧
    (∀ (t : DispatchTable) (s : CoreState) (f' : Frame) (q' : FrameQueue),
      pop s.queue = some (f', q') → (poll t s).1.queue = q') ∧
    (scenarioQueue.frames = (List.range 16).map mkFrame ∧
      scenarioQueue.bufferOverflow = true ∧
      drainAux 20 scenarioQueue = (List.range 16).map mkFrame) := by
  refine ⟨?_, ?_, by decide⟩
  · have h : ¬ q.frames.length < q.capacity := Nat.not_lt.mpr hfull
    unfold push
    simp [h]
  · intro t s f' q' hp
    unfold poll
    rw [hp]
    cases hv : f'.valid
    · simp [hv]
    · cases ht : t (opcode f') with
      | none => simp [hv, ht]
      | some dec => simp [hv, ht]

/-- C7 witness: the drop rule applied to the concrete full scenario
queue. -/
theorem c7_full_queue_drop_witness :
    (push scenarioQueue (mkFrame 20)).frames = scenarioQueue.frames ∧
    (push scenarioQueue (mkFrame 20)).bufferOverflow = true :=
  (c7_full_queue_drop scenarioQueue (mkFrame 20) (by decide)).1

theorem wstep_not_ready (s : WState) (e : WEvent) (hs : writeReady s = false)
    (he : e ≠ WEvent.txComplete) : writeReady (wstep s e) = false := by
  cases s with
  | idle => cases hs
  | queued b => cases e <;> rfl
  | transmitting b =>
      cases e with
      | slotDetected => rfl
      | slotMissed => rfl
      | txComplete => exact absurd rfl he

theorem wsteps_not_ready (s : WState) (es : List WEvent)
    (hs : writeReady s = false) (he : WEvent.txComplete ∉ es) :
    writeReady (wsteps s es) = false := by
  induction es generalizing s with
  | nil => exact hs
  | cons e rest ih =>
      have h1 : e ≠ WEvent.txComplete := by
        intro hh
        exact he (by simp [hh])
      have h2 : WEvent.txComplete ∉ rest := fun hh => he (by simp [hh])
      exact ih _ (wstep_not_ready s e hs h1) h2

/-- C5: after a successful write request `writeReady` is false and stays
false through any event run that contains no transmission completion; it
becomes true again at transmission completion; and while a byte is
pending a further write request is rejected and leaves the state
unchanged, so at most one WriteRequest is ever pending. -/
theorem c5_write_gating (s : WState) (b : Nat) (es : List WEvent) :
    ((write s b).2 = true → writeReady (write s b).1 = false) ∧
    ((write s b).2 = true → WEvent.txComplete ∉ es →
      writeReady (wsteps (write s b).1 es) = false) ∧
    (∀ b', writeReady (wstep (WState.transmitting b') WEvent.txComplete) = true) ∧
    (pendingByte s ≠ none → write s b = (s, false) ∧ writeReady s = false) := by
  refine ⟨?_, ?_, fun b' => rfl, ?_⟩
  · intro h
    cases s with
    | idle => rfl
    | queued b0 => simp [write, writeReady] at h
    | transmitting b0 => simp [write, writeReady] at h
  · intro h hn
    cases s with
    | idle => exact wsteps_not_ready _ es rfl hn
    | queued b0 => simp [write, writeReady] at h
    | transmitting b0 => simp [write, writeReady] at h
  · intro hp
    cases s with
    | idle => exact absurd rfl hp
    | queued b0 => exact ⟨rfl, rfl⟩
    | transmitting b0 => exact ⟨rfl, rfl⟩

/-- C5 witness: the write gate evaluated on a concrete accepted write
and on a concrete pending state. -/
theorem c5_write_gating_witness :
    writeReady (write WState.idle 5).1 = false ∧
    writeReady (wsteps (write WState.idle 5).1
      [WEvent.slotMissed, WEvent.slotDetected]) = false ∧
    write (WState.queued 7) 5 = (WState.queued 7, false) :=
  ⟨(c5_write_gating WState.idle 5 [WEvent.slotMissed, WEvent.slotDetected]).1 (by decide),
   (c5_write_gating WState.idle 5 [WEvent.slotMissed, WEvent.slotDetected]).2.1
     (by decide) (by decide),
   ((c5_write_gating (WState.queued 7) 5 []).2.2.2 (by decide)).1⟩

theorem applyUpdate_statusChanged_mono (m : StatusModel) (id : EntityId) (v : Bool)
    (h : m.statusChanged = true) : (applyUpdate m id v).statusChanged = true := by
  unfold applyUpdate
  split <;> simp [h]

theorem applyUpdates_statusChanged_mono (m : StatusModel)
    (us : List (EntityId × Bool)) (h : m.statusChanged = true) :
    (applyUpdates m us).statusChanged = true := by
  induction us generalizing m with
  | nil => exact h
  | cons u rest ih => exact ih _ (applyUpdate_statusChanged_mono m u.1 u.2 h)

theorem applyUpdate_new_changed (m : StatusModel) (id : EntityId)
    (u : EntityId × Bool)
    (hnew : ((applyUpdate m u.1 u.2).entity id).changed = true)
    (hold : (m.entity id).changed = false) :
    (applyUpdate m u.1 u.2).statusChanged = true := by
  by_cases hc : u.2 ≠ (m.entity u.1).value
  · unfold applyUpdate
    simp [hc]
  · unfold applyUpdate at hnew
    rw [if_neg hc] at hnew
    rw [hold] at hnew
    cases hnew

theorem applyUpdates_new_changed (m : StatusModel) (us : List (EntityId × Bool))
    (id : EntityId)
    (hnew : ((applyUpdates m us).entity id).changed = true)
    (hold : (m.entity id).changed = false) :
    (applyUpdates m us).statusChanged = true := by
  induction us generalizing m with
  | nil =>
      rw [applyUpdates_nil] at hnew
      rw [hold] at hnew
      cases hnew
  | cons u rest ih =>
      rw [applyUpdates_cons] at hnew ⊢
      by_cases hc : ((applyUpdate m u.1 u.2).entity id).changed = true
      · exact applyUpdates_statusChanged_mono _ rest
          (applyUpdate_new_changed m id u hc hold)
      · have hc' : ((applyUpdate m u.1 u.2).entity id).changed = false :=
          Bool.eq_false_iff.mpr hc
        exact ih _ hnew hc'

theorem pop_nil (q : FrameQueue) (h : q.frames = []) : pop q = none := by
  unfold pop
  rw [h]

/-- C8: the poll operation returns true exactly when a pending frame was
available, valid, and carried a known opcode (a valid command was
processed); and any individual changed flag becoming true during the
poll forces the global `statusChanged` flag to true, so a consumer
seeing `statusChanged` false may skip the detailed fields. -/
theorem c8_poll_contract (t : DispatchTable) (s : CoreState) :
    ((poll t s).2 = true ↔
      ∃ f rest, s.queue.frames = f :: rest ∧ f.valid = true ∧
        (t (opcode f)).isSome = true) ∧
    (∀ id, ((poll t s).1.model.entity id).changed = true →
      (s.model.entity id).changed = false →
      (poll t s).1.model.statusChanged = true) := by
  constructor
  · unfold poll
    cases hq : s.queue.frames with
    | nil =>
        rw [pop_nil s.queue hq]
        simp [hq]
    | cons f rest =>
        rw [pop_cons s.queue f rest hq]
        cases hv : f.valid
        · simp [hq, hv]
        · cases ht : t (opcode f) with
          | none => simp [hq, hv, ht]
          | some dec => simp [hq, hv, ht]
  · intro id hnew hold
    rcases poll_model_cases t s with hm | ⟨us, hm⟩
    · rw [hm] at hnew
      rw [hold] at hnew
      cases hnew
    · rw [hm] at hnew ⊢
      exact applyUpdates_new_changed s.model us id hnew hold

/-- C8 witness: the poll contract evaluated on a concrete queued valid
frame with a known opcode. -/
theorem c8_poll_contract_witness :
    (poll tableW stateW).2 = true ∧
    (poll tableW stateW).1.model.statusChanged = true :=
  ⟨(c8_poll_contract tableW stateW).1.mpr ⟨mkFrame 5, [], rfl, rfl, by decide⟩,
   (c8_poll_contract tableW stateW).2 EntityId.trouble (by decide) (by decide)⟩

/-- C9: a frame whose leading opcode byte is outside the dispatch table
is ignored without error — the StatusModel (every value and changed
flag, and the global flag) is left untouched, the poll returns false,
and the frame is simply consumed. -/
theorem c9_unknown_opcode (t : DispatchTable) (s : CoreState) (f : Frame)
    (rest : List Frame) (hq : s.queue.frames = f :: rest)
    (hu : t (opcode f) = none) :
    (poll t s).1.model = s.model ∧ (poll t s).2 = false ∧
    (poll t s).1.queue.frames = rest := by
  unfold poll
  rw [pop_cons s.queue f rest hq]
  cases hv : f.valid
  · simp [hv]
  · simp [hv, hu]

/-- C9 witness: an all-unknown dispatch table leaves the model of a
concrete state untouched. -/
theorem c9_unknown_opcode_witness :
    (poll tableNone stateW).1.model = stateW.model ∧
    (poll tableNone stateW).2 = false ∧
    (poll tableNone stateW).1.queue.frames = [] :=
  c9_unknown_opcode tableNone stateW (mkFrame 5) [] rfl rfl

/-- C3: the externally reported zone number is `zoneGroup*8 + zoneBit + 1`,
always lands in the zone range 1 to 64, and the mapping is a bijection
between (group, bit) pairs and the 64 configured zones. -/
theorem c3_zone_bijection :
    (∀ g b : Fin 8, zoneNumber g.val b.val = g.val * 8 + b.val + 1 ∧
      1 ≤ zoneNumber g.val b.val ∧ zoneNumber g.val b.val ≤ 64) ∧
    (∀ g b g' b' : Fin 8,
      zoneNumber g.val b.val = zoneNumber g'.val b'.val → g = g' ∧ b = b') ∧
    (∀ n : Fin 64, ∃ g b : Fin 8, zoneNumber g.val b.val = n.val + 1) := by
  decide

/-- C3 witness: the scenario zone — group 1, bit 0 reports zone 9 — and
the injectivity applied there. -/
theorem c3_zone_bijection_witness :
    zoneNumber 1 0 = 9 ∧ ((1 : Fin 8) = 1 ∧ (0 : Fin 8) = 0) :=
  ⟨by decide, c3_zone_bijection.2.1 1 0 1 0 (by decide)⟩

set_option maxRecDepth 10000 in
theorem bitWrite_zero_read_self :
    ∀ v < 256, ∀ b < 8, bitRead (bitWrite v b 0) b = 0 := by
  decide

set_option maxRecDepth 10000 in
set_option maxHeartbeats 1000000 in
theorem bitWrite_zero_read_other :
    ∀ v < 256, ∀ b < 8, ∀ b' < 8, b' ≠ b →
      bitRead (bitWrite v b 0) b' = bitRead v b' := by
  decide

theorem clearOpenZoneChangedBit_at (z : ZoneStatus) (g : Fin 8) (b : Nat) :
    (clearOpenZoneChangedBit z g b).openZonesChanged g =
      bitWrite (z.openZonesChanged g) b 0 := by
  unfold clearOpenZoneChangedBit
  simp

theorem clearAlarmZoneChangedBit_at (z : ZoneStatus) (g : Fin 8) (b : Nat) :
    (clearAlarmZoneChangedBit z g b).alarmZonesChanged g =
      bitWrite (z.alarmZonesChanged g) b 0 := by
  unfold clearAlarmZoneChangedBit
  simp

/-- C10: the consumer's clear of an individual zone changed bit touches
only that bit — the other bits of the group keep their read value, the
other groups are untouched, and the zone value arrays and the opposite
changed array are untouched — for both the open-zone and the alarm-zone
clear. -/
theorem c10_single_bit_clear (z : ZoneStatus) (g : Fin 8) (b : Nat)
    (hb : b < 8) (ho : z.openZonesChanged g < 256)
    (ha : z.alarmZonesChanged g < 256) :
    ((clearOpenZoneChangedBit z g b).openZones = z.openZones ∧
      (clearOpenZoneChangedBit z g b).alarmZones = z.alarmZones ∧
      (clearOpenZoneChangedBit z g b).alarmZonesChanged = z.alarmZonesChanged) ∧
    bitRead ((clearOpenZoneChangedBit z g b).openZonesChanged g) b = 0 ∧
    (∀ b' < 8, b' ≠ b →
      bitRead ((clearOpenZoneChangedBit z g b).openZonesChanged g) b' =
        bitRead (z.openZonesChanged g) b') ∧
    (∀ g', g' ≠ g →
      (clearOpenZoneChangedBit z g b).openZonesChanged g' =
        z.openZonesChanged g') ∧
    ((clearAlarmZoneChangedBit z g b).openZones = z.openZones ∧
      (clearAlarmZoneChangedBit z g b).alarmZones = z.alarmZones ∧
      (clearAlarmZoneChangedBit z g b).openZonesChanged = z.openZonesChanged) ∧
    bitRead ((clearAlarmZoneChangedBit z g b).alarmZonesChanged g) b = 0 ∧
    (∀ b' < 8, b' ≠ b →
      bitRead ((clearAlarmZoneChangedBit z g b).alarmZonesChanged g) b' =
        bitRead (z.alarmZonesChanged g) b') ∧
    (∀ g', g' ≠ g →
      (clearAlarmZoneChangedBit z g b).alarmZonesChanged g' =
        z.alarmZonesChanged g') := by
  refine ⟨⟨rfl, rfl, rfl⟩, ?_, ?_, ?_, ⟨rfl, rfl, rfl⟩, ?_, ?_, ?_⟩
  · rw [clearOpenZoneChangedBit_at]
    exact bitWrite_zero_read_self _ ho b hb
  · intro b' hb' hne
    rw [clearOpenZoneChangedBit_at]
    exact bitWrite_zero_read_other _ ho b hb b' hb' hne
  · intro g' hg
    unfold clearOpenZoneChangedBit
    simp [hg]
  · rw [clearAlarmZoneChangedBit_at]
    exact bitWrite_zero_read_self _ ha b hb
  · intro b' hb' hne
    rw [clearAlarmZoneChangedBit_at]
    exact bitWrite_zero_read_other _ ha b hb b' hb' hne
  · intro g' hg
    unfold clearAlarmZoneChangedBit
    simp [hg]

/-- C10 witness: clearing bit 0 of group 1 on a concrete all-ones zone
status — the cleared bit reads 0, bit 3 of the group and group 2 of the
alarm array are untouched. -/
theorem c10_single_bit_clear_witness :
    bitRead ((clearOpenZoneChangedBit zoneW 1 0).openZonesChanged 1) 0 = 0 ∧
    bitRead ((clearOpenZoneChangedBit zoneW 1 0).openZonesChanged 1) 3 =
      bitRead (zoneW.openZonesChanged 1) 3 ∧
    (clearAlarmZoneChangedBit zoneW 1 0).alarmZonesChanged 2 =
      zoneW.alarmZonesChanged 2 :=
  ⟨(c10_single_bit_clear zoneW 1 0 (by decide) (by decide) (by decide)).2.1,
   (c10_single_bit_clear zoneW 1 0 (by decide) (by decide) (by decide)).2.2.1
     3 (by decide) (by decide),
   (c10_single_bit_clear zoneW 1 0 (by decide) (by decide) (by decide)).2.2.2.2.2.2.2
     2 (by decide)⟩

end Dsc
